import Mathlib

/-!
Verification of the Tessera seat-inventory and reservation subsystem.

The frontend definitions (`Client` namespace) are shallow embeddings of the
React sources (`frontend/src/pages/Checkout.jsx`,
`frontend/src/pages/EventDetail.jsx`).  The backend `backend/app.py` is not
part of the available sources, so the server side (`Backend` namespace) is
modelled from the specification's component contracts (SeatInventory,
HoldManager, CartAggregator, PaymentOrchestrator, OrderFinalizer) and from
the repository documents `docs/TICKETING_SYSTEM.md` and `README.md`.
Money amounts are integer cents; timestamps are integers (milliseconds on
the client, arbitrary units on the server with a fixed hold TTL).
-/

namespace Client

/-- A seat entry of a cart object as served by `GET /cart` and consumed by
`Checkout.jsx` (`cart.seats`): only the fields the embedded functions read. -/
structure SeatView where
  seat_id : Nat
  price_cents : Option Int
deriving DecidableEq, Repr

/-- A cart object as consumed by `Checkout.jsx`. -/
structure CartView where
  cart_id : Nat
  seats : List SeatView
deriving DecidableEq, Repr

/-- Checkout.jsx line 70 (`PaymentForm`):
`const totalCents = cartData.seats.reduce((sum, seat) => sum + (seat.price_cents || 0), 0)`. -/
def paymentFormTotalCents (seats : List SeatView) : Int :=
  seats.foldl (fun sum s => sum + s.price_cents.getD 0) 0

/-- Checkout.jsx line 71: `const totalDollars = totalCents / 100`, in exact
rational arithmetic. -/
def paymentFormTotalDollars (seats : List SeatView) : ℚ :=
  (paymentFormTotalCents seats : ℚ) / 100

/-- Checkout.jsx lines 345-347 (`getCartTotal`):
`cart.seats.reduce((sum, seat) => sum + (seat.price_cents || 0), 0) / 100`. -/
def getCartTotal (cart : CartView) : ℚ :=
  ((cart.seats.foldl (fun sum s => sum + s.price_cents.getD 0) 0 : Int) : ℚ) / 100

/-- JavaScript `String.prototype.padStart(2, '0')`. -/
def padStart2 (s : String) : String :=
  if s.length ≥ 2 then s else String.mk (List.replicate (2 - s.length) '0') ++ s

/-- Checkout.jsx lines 369-371: the `minutes:seconds` rendering of a positive
remaining time `diff` in milliseconds. -/
def fmtRemaining (diff : Int) : String :=
  let minutes := (diff / 60000).toNat
  let seconds := ((diff % 60000) / 1000).toNat
  toString minutes ++ ":" ++ padStart2 (toString seconds)

/-- Checkout.jsx lines 363-372 (`getTimeRemaining`): `null` when no expiry is
given; `'Expired'` when `expires - now <= 0`; otherwise the `m:ss` display. -/
def getTimeRemaining (expiresAt : Option Int) (now : Int) : Option String :=
  match expiresAt with
  | none => none
  | some e =>
    let diff := e - now
    if diff ≤ 0 then some "Expired" else some (fmtRemaining diff)

/-- The seat-selection state of `EventDetail.jsx`: `selectedSeatIds` and
`cart` React state. -/
structure SelectionState where
  selectedSeatIds : List Nat
  cart : Option CartView
deriving DecidableEq, Repr

/-- EventDetail.jsx lines 192-246 (`addSeatCallback`), restricted to its state
update: when the `reserve` response is not ok the handler throws before any
state update; when it is ok the seat id is appended and the cart replaced. -/
def addSeatUpdate (st : SelectionState) (ok : Bool) (seatId : Nat)
    (data : CartView) : SelectionState :=
  if ok then
    { selectedSeatIds := st.selectedSeatIds ++ [seatId], cart := some data }
  else st

/-- EventDetail.jsx lines 249-283 (`removeSeatCallback`), restricted to its
state update: `setSelectedSeatIds(prev => prev.filter(id => id !== seatId))`. -/
def removeSeatUpdate (st : SelectionState) (seatId : Nat) : SelectionState :=
  { st with selectedSeatIds := st.selectedSeatIds.filter (fun i => i ≠ seatId) }

/-- A finalize request issued by the client: which endpoint, and which payment
authorization (if any) it carries. -/
structure FinalizeRequest where
  endpoint : String
  paymentIntentId : Option String
deriving DecidableEq, Repr

/-- Checkout.jsx lines 104-143 (`PaymentForm.handleSubmit`, steps 2-3): after
`stripe.confirmCardPayment`, the handler throws when `stripeError` is present
or `paymentIntent.status !== 'succeeded'`; only otherwise does it issue
`POST /complete-purchase` with the payment intent id. -/
def paymentFormFinalize (stripeError : Option String) (intentStatus : String)
    (paymentIntentId : String) : Option FinalizeRequest :=
  match stripeError with
  | some _ => none
  | none =>
    if intentStatus ≠ "succeeded" then none
    else some { endpoint := "/complete-purchase", paymentIntentId := some paymentIntentId }

/-- EventDetail.jsx lines 300-355 (`handleCheckout`): whenever a cart with a
`cart_id` exists the handler issues `POST /cart/<id>/checkout` carrying only
the auth token — no payment intent and no prior card confirmation. -/
def handleCheckoutFinalize (cart : Option CartView) : Option FinalizeRequest :=
  match cart with
  | none => none
  | some c =>
    some { endpoint := "/cart/" ++ toString c.cart_id ++ "/checkout", paymentIntentId := none }

end Client

namespace Client

/-- A seat row returned by `GET /events/{id}/seats`, as consumed by
`EventDetail.jsx` (`seatsData`). -/
structure ApiSeat where
  seat_id : Nat
  row_label : Option String
  seat_number : String
  col_index : Option Nat
  price_cents : Option Int
  availability : String
  sectionName : Option String
deriving DecidableEq, Repr

/-- JavaScript `parseInt(s, 10)`: the leading digit run, `NaN` (here `none`)
when there is none. -/
def parseIntJs (s : String) : Option Nat :=
  let ds := s.toList.takeWhile Char.isDigit
  if ds.isEmpty then none else (String.mk ds).toNat?

/-- JavaScript `a || b` on numbers, with `none` standing for `NaN`/missing and
`0` falsy. -/
def jsOrNat (a b : Option Nat) : Option Nat :=
  match a with
  | some n => if n = 0 then b else some n
  | none => b

/-- EventDetail.jsx line 131: the column value used to place a seat,
`seat.col_index || parseInt(seat.seat_number, 10)` (no final fallback). -/
def seatColIdx (s : ApiSeat) : Option Nat :=
  jsOrNat s.col_index (parseIntJs s.seat_number)

/-- EventDetail.jsx lines 120-126: the column value used for sorting and for
the row width, `seat.col_index || parseInt(seat.seat_number, 10) || 1`. -/
def seatCol (s : ApiSeat) : Nat :=
  match seatColIdx s with
  | some n => if n = 0 then 1 else n
  | none => 1

/-- EventDetail.jsx line 105: the grouping key `seat.row_label || 'A'`
(the empty string is falsy in JavaScript). -/
def rowKey (s : ApiSeat) : String :=
  match s.row_label with
  | some l => if l = "" then "A" else l
  | none => "A"

/-- EventDetail.jsx lines 102-113: the distinct row labels, sorted ascending
(`Object.keys(rowsMap).sort()`). -/
def rowKeys (seats : List ApiSeat) : List String :=
  List.insertionSort (· ≤ ·) (seats.map rowKey).dedup

/-- EventDetail.jsx lines 104-110: the seats grouped under one row label, in
arrival order. -/
def rowSeatsOf (seats : List ApiSeat) (k : String) : List ApiSeat :=
  seats.filter (fun s => rowKey s = k)

/-- EventDetail.jsx lines 119-123: in-row sort by column. -/
def sortRow (l : List ApiSeat) : List ApiSeat :=
  List.insertionSort (fun a b => seatCol a ≤ seatCol b) l

/-- EventDetail.jsx line 126: `Math.max(...rowSeats.map(colOf))`. -/
def maxColOf (l : List ApiSeat) : Nat :=
  (l.map seatCol).foldl max 0

/-- Nonnegative cents rendered as JavaScript `(cents / 100).toFixed(2)`. -/
def centsToFixed2 (c : Int) : String :=
  toString (c.toNat / 100) ++ "." ++ padStart2 (toString (c.toNat % 100))

/-- A cell handed to `TesseraSeatPicker` (EventDetail.jsx lines 135-140). -/
structure SeatCell where
  id : Nat
  number : Nat
  isReserved : Bool
  tooltip : String
deriving DecidableEq, Repr

/-- EventDetail.jsx lines 133-140: the cell built for a placed seat.
`number` is `parseInt(seat.seat_number, 10) || col`; `isReserved` is
`seat.availability !== 'AVAILABLE'`. -/
def mkCell (col : Nat) (s : ApiSeat) : SeatCell :=
  { id := s.seat_id
    number := match parseIntJs s.seat_number with
              | some n => if n = 0 then col else n
              | none => col
    isReserved := s.availability ≠ "AVAILABLE"
    tooltip := "$" ++ centsToFixed2 (s.price_cents.getD 0) ++ " - " ++ (s.sectionName.getD "General") }

/-- EventDetail.jsx lines 127-146: one output row; position `col - 1` holds
the first sorted seat whose `seatColIdx` is `col`, else `null`. -/
def buildRow (l : List ApiSeat) : List (Option SeatCell) :=
  let sorted := sortRow l
  (List.range (maxColOf l)).map (fun i =>
    match sorted.find? (fun s => seatColIdx s == some (i + 1)) with
    | some s => some (mkCell (i + 1) s)
    | none => none)

/-- EventDetail.jsx lines 99-148 (`seatRows`): group by row label, sort the
labels, and lay each row out on a `1..maxCol` grid with `null` gaps. -/
def seatRows (seats : List ApiSeat) : List (List (Option SeatCell)) :=
  (rowKeys seats).map (fun k => buildRow (rowSeatsOf seats k))

/-- The record computed by EventDetail.jsx lines 407-414 (`inventoryStats`). -/
structure InvStats where
  total : Nat
  available : Nat
  sold : Nat
  held : Nat
  percentSold : ℚ
deriving DecidableEq, Repr

/-- EventDetail.jsx lines 407-414 (`inventoryStats`): seat counts by
availability and `percentSold = total > 0 ? (sold / total) * 100 : 0`. -/
def inventoryStats (seats : List ApiSeat) : InvStats :=
  let total := seats.length
  let available := (seats.filter (fun s => s.availability == "AVAILABLE")).length
  let sold := (seats.filter (fun s => s.availability == "SOLD")).length
  let held := (seats.filter (fun s => s.availability == "HELD")).length
  { total := total, available := available, sold := sold, held := held
    percentSold := if 0 < total then ((sold : ℚ) / (total : ℚ)) * 100 else 0 }

end Client

namespace Backend

/-- Seat availability states (spec section 3, `docs/TICKETING_SYSTEM.md`). -/
inductive SeatStatus
  | AVAILABLE
  | HELD
  | SOLD
deriving DecidableEq, Repr

/-- Modelled from the spec: a `SeatStatusRecord` / `EventSeatStatus` row for
one seat of one event (`backend/app.py` is not in the sources). -/
structure SeatRecord where
  status : SeatStatus
  holding_cart_id : Option Nat
  hold_expires_at : Option Int
deriving DecidableEq, Repr

/-- Cart states (spec section 3). -/
inductive CartStatus
  | OPEN
  | CONVERTED
  | EXPIRED
deriving DecidableEq, Repr

/-- Modelled from the spec: a `Cart` row. -/
structure CartRec where
  cart_id : Nat
  user_id : Nat
  event_id : Nat
  status : CartStatus
  expires_at : Int
deriving DecidableEq, Repr

/-- Modelled from the spec: a `CartSeat` membership row with the price
snapshot taken at hold time. -/
structure CartSeat where
  cart_id : Nat
  seat_id : Nat
  price_snapshot : Int
deriving DecidableEq, Repr

/-- Modelled from the spec: an `Order` row. -/
structure OrderRec where
  order_id : Nat
  user_id : Nat
  status : String
  total_cents : Int
deriving DecidableEq, Repr

/-- Modelled from the spec: an `OrderItem` row carrying the snapshot price. -/
structure OrderItemRec where
  order_id : Nat
  seat_id : Nat
  price : Int
deriving DecidableEq, Repr

/-- Modelled from the spec: a `Ticket` row. -/
structure TicketRec where
  order_id : Nat
  seat_id : Nat
  barcode : String
  status : String
deriving DecidableEq, Repr

/-- Modelled from the spec: the persistent state of the core for one event's
inventory — seat records by seat id, plus carts, cart seats, orders, order
items and tickets, with fresh-id counters. -/
structure BState where
  seats : Nat → SeatRecord
  carts : List CartRec
  cartSeats : List CartSeat
  orders : List OrderRec
  orderItems : List OrderItemRec
  tickets : List TicketRec
  nextCartId : Nat
  nextOrderId : Nat

/-- The 10-minute hold TTL (spec section 4.2). -/
def ttl : Int := 10 * 60

/-- Modelled from the spec (section 4.1, `SeatInventory.effectiveStatus`):
`SOLD` is terminal; `HELD` with `hold_expires_at ≤ now` is treated as
AVAILABLE; otherwise the stored value holds. -/
def effectiveStatus (r : SeatRecord) (now : Int) : SeatStatus :=
  match r.status with
  | .SOLD => .SOLD
  | .HELD =>
    match r.hold_expires_at with
    | some e => if e ≤ now then .AVAILABLE else .HELD
    | none => .HELD
  | .AVAILABLE => .AVAILABLE

/-- Whether `r` is effectively held by cart `cid` at `now` (the
`HELD-by-this-cart` precondition of spec sections 4.2 and 4.6). -/
def heldByCart (r : SeatRecord) (cid : Nat) (now : Int) : Bool :=
  effectiveStatus r now == .HELD && r.holding_cart_id == some cid

/-- Whether a cart is the `OPEN` cart of `(u, e)`. -/
def isOpenFor (u e : Nat) (c : CartRec) : Bool :=
  c.user_id == u && c.event_id == e && c.status == .OPEN

/-- Modelled from the spec (section 4.2 step 2): find or create the single
`OPEN` cart for `(user, event)`. -/
def findOrCreateOpenCart (st : BState) (u e : Nat) (now : Int) : CartRec × BState :=
  match st.carts.find? (isOpenFor u e) with
  | some c => (c, st)
  | none =>
    let c : CartRec := ⟨st.nextCartId, u, e, .OPEN, now + ttl⟩
    (c, { st with carts := st.carts ++ [c], nextCartId := st.nextCartId + 1 })

/-- The requested seat ids that are not effectively AVAILABLE at `now`
(the offending ids of a `Conflict`). -/
def unavailableIn (st : BState) (seat_ids : List Nat) (now : Int) : List Nat :=
  seat_ids.filter (fun sid => !(effectiveStatus (st.seats sid) now == .AVAILABLE))

/-- Reset every matching cart's `expires_at` (spec section 4.2 step 4). -/
def setCartExpiry (carts : List CartRec) (cid : Nat) (t : Int) : List CartRec :=
  carts.map (fun c => if c.cart_id == cid then { c with expires_at := t } else c)

/-- Point-update of the listed seats to `HELD` by cart `cid` until `exp`. -/
def holdSeats (seats : Nat → SeatRecord) (seat_ids : List Nat) (cid : Nat)
    (exp : Int) : Nat → SeatRecord :=
  fun sid => if seat_ids.contains sid then ⟨.HELD, some cid, some exp⟩ else seats sid

/-- Reservation failures (spec sections 4.2 and 7). -/
inductive ReserveErr
  | notSellable
  | conflict (unavailable : List Nat)
deriving DecidableEq, Repr

/-- Modelled from the spec (section 4.2, `HoldManager.reserve`): fail
`NotSellable` unless the event is sellable; find or create the `OPEN` cart;
all-or-nothing transition of every requested seat from effectively AVAILABLE
to HELD, snapshotting prices and resetting the cart TTL; on any unavailable
seat, `Conflict` with the offending ids and no transition applied. -/
def reserve (st : BState) (sellable : Bool) (u e : Nat) (seat_ids : List Nat)
    (price : Nat → Int) (now : Int) : Except ReserveErr (BState × CartRec) :=
  if !sellable then .error .notSellable
  else
    let p := findOrCreateOpenCart st u e now
    let cart := p.1
    let st1 := p.2
    let unavailable := unavailableIn st1 seat_ids now
    if unavailable.isEmpty then
      let exp := now + ttl
      .ok ({ st1 with
              seats := holdSeats st1.seats seat_ids cart.cart_id exp
              cartSeats := st1.cartSeats ++
                seat_ids.map (fun sid => ⟨cart.cart_id, sid, price sid⟩)
              carts := setCartExpiry st1.carts cart.cart_id exp },
           { cart with expires_at := exp })
    else .error (.conflict unavailable)

/-- The committed state of a reservation attempt: the transactional store
rolls back to the pre-call state on error. -/
def reserveVisible (r : Except ReserveErr (BState × CartRec)) (st : BState) : BState :=
  match r with
  | .ok p => p.1
  | .error _ => st

/-- Modelled from the spec (section 4.2, `HoldManager.release`): transition
each listed seat that is effectively HELD by this cart back to AVAILABLE,
clearing the holder fields; seats not held by this cart are skipped
(idempotent, not an error); matching `CartSeat` rows are removed. -/
def release (st : BState) (cid : Nat) (seat_ids : List Nat) (now : Int) : BState :=
  { st with
    seats := fun sid =>
      if seat_ids.contains sid && heldByCart (st.seats sid) cid now then
        ⟨.AVAILABLE, none, none⟩
      else st.seats sid
    cartSeats := st.cartSeats.filter
      (fun cs => !(cs.cart_id == cid && seat_ids.contains cs.seat_id)) }

/-- Set the status of every cart with id `cid`. -/
def setCartStatus (carts : List CartRec) (cid : Nat) (s : CartStatus) : List CartRec :=
  carts.map (fun c => if c.cart_id == cid then { c with status := s } else c)

/-- Modelled from the spec (section 4.4, the cart-marking half of
`ExpiryReaper.sweep`): mark every `OPEN` cart whose window elapsed
`EXPIRED`. -/
def sweepCarts (carts : List CartRec) (now : Int) : List CartRec :=
  carts.map (fun c =>
    if c.status == .OPEN && decide (c.expires_at ≤ now) then { c with status := .EXPIRED } else c)

/-- Modelled from the spec: the payment provider's authoritative view of one
authorization — `status` plus the cart/user correlation metadata. -/
structure PaymentIntentRec where
  status : String
  meta_cart_id : Nat
  meta_user_id : Nat
deriving DecidableEq, Repr

/-- Finalization failures (spec sections 4.6 and 7). `injected` stands for an
injected failure after payment verification but before the seat transition. -/
inductive FinalizeErr
  | paymentNotSucceeded (status : String)
  | securityMismatch
  | conflict (lost : List Nat)
  | injected
  | barcodesExhausted
deriving DecidableEq, Repr

/-- Modelled from the spec (section 4.6 step 4): draw candidate barcodes until
one misses the uniqueness constraint check; a collision is retried, never an
error. Returns the fresh barcode and the remaining candidates. -/
def genBarcode (existing : List String) : List String → Option (String × List String)
  | [] => none
  | c :: rest => if existing.contains c then genBarcode existing rest else some (c, rest)

/-- Modelled from the spec (section 4.6 step 4): generate `n` fresh barcodes,
each checked against all barcodes issued so far. -/
def genBarcodes (existing : List String) (cands : List String) : Nat → Option (List String)
  | 0 => some []
  | n + 1 =>
    match genBarcode existing cands with
    | none => none
    | some (b, rest) =>
      match genBarcodes (b :: existing) rest n with
      | none => none
      | some bs => some (b :: bs)

/-- Modelled from the spec (section 4.6, `OrderFinalizer.completePurchase`):
query the provider for the authorization's status (never the caller's claim)
and fail `PaymentNotSucceeded` unless it succeeded; fail `SecurityMismatch`
unless the metadata matches; re-verify every cart seat is still effectively
HELD by this cart, failing `Conflict` with the lost seats; then, in one
transaction, create the `PAID` order, one order item per seat at its snapshot
price, one ticket per seat with a fresh unique barcode, transition the seats
HELD to SOLD, mark the cart CONVERTED and clear its cart seats.  `inject`
models a failure injected after payment verification but before the seat
transition. -/
def completePurchase (st : BState) (provider : String → PaymentIntentRec)
    (pid : String) (cartId userId : Nat) (now : Int) (cands : List String)
    (inject : Bool) : Except FinalizeErr BState :=
  let pi := provider pid
  if pi.status ≠ "succeeded" then .error (.paymentNotSucceeded pi.status)
  else if pi.meta_cart_id ≠ cartId ∨ pi.meta_user_id ≠ userId then .error .securityMismatch
  else
    let items := st.cartSeats.filter (fun cs => cs.cart_id == cartId)
    let lost := items.filter (fun cs => !heldByCart (st.seats cs.seat_id) cartId now)
    if !lost.isEmpty then .error (.conflict (lost.map (fun cs => cs.seat_id)))
    else if inject then .error .injected
    else
      match genBarcodes (st.tickets.map (fun t => t.barcode)) cands items.length with
      | none => .error .barcodesExhausted
      | some bs =>
        let oid := st.nextOrderId
        .ok { st with
              orders := st.orders ++ [⟨oid, userId, "PAID", (items.map (fun cs => cs.price_snapshot)).sum⟩]
              orderItems := st.orderItems ++ items.map (fun cs => ⟨oid, cs.seat_id, cs.price_snapshot⟩)
              tickets := st.tickets ++ (items.zip bs).map (fun p => ⟨oid, p.1.seat_id, p.2, "ISSUED"⟩)
              seats := fun sid =>
                if (items.map (fun cs => cs.seat_id)).contains sid then ⟨.SOLD, none, none⟩
                else st.seats sid
              carts := setCartStatus st.carts cartId .CONVERTED
              cartSeats := st.cartSeats.filter (fun cs => !(cs.cart_id == cartId))
              nextOrderId := st.nextOrderId + 1 }

/-- The committed state of a finalization attempt: the transaction rolls back
to the pre-call state on error, so nothing of steps 4-6 is visible. -/
def finalizeVisible (r : Except FinalizeErr BState) (st : BState) : BState :=
  match r with
  | .ok st' => st'
  | .error _ => st

/-- Modelled from the spec: `backend/app.py` is not in the sources; the
repository README documents `POST /cart/<id>/checkout` as "Checkout cart
(non-Stripe)" and `EventDetail.handleCheckout` expects it to return
`order_id` and `tickets_created`.  It finalizes the cart's held seats into a
paid order with tickets without consulting the payment provider. -/
def cartCheckout (st : BState) (cartId userId : Nat) (now : Int)
    (cands : List String) : Except FinalizeErr BState :=
  let items := st.cartSeats.filter (fun cs => cs.cart_id == cartId)
  let lost := items.filter (fun cs => !heldByCart (st.seats cs.seat_id) cartId now)
  if !lost.isEmpty then .error (.conflict (lost.map (fun cs => cs.seat_id)))
  else
    match genBarcodes (st.tickets.map (fun t => t.barcode)) cands items.length with
    | none => .error .barcodesExhausted
    | some bs =>
      let oid := st.nextOrderId
      .ok { st with
            orders := st.orders ++ [⟨oid, userId, "PAID", (items.map (fun cs => cs.price_snapshot)).sum⟩]
            orderItems := st.orderItems ++ items.map (fun cs => ⟨oid, cs.seat_id, cs.price_snapshot⟩)
            tickets := st.tickets ++ (items.zip bs).map (fun p => ⟨oid, p.1.seat_id, p.2, "ISSUED"⟩)
            seats := fun sid =>
              if (items.map (fun cs => cs.seat_id)).contains sid then ⟨.SOLD, none, none⟩
              else st.seats sid
            carts := setCartStatus st.carts cartId .CONVERTED
            cartSeats := st.cartSeats.filter (fun cs => !(cs.cart_id == cartId))
            nextOrderId := st.nextOrderId + 1 }

/-- Modelled from the spec (section 4.3, `CartAggregator`): a cart's total is
the sum of its seats' snapshot prices. -/
def cartTotal (st : BState) (cartId : Nat) : Int :=
  ((st.cartSeats.filter (fun cs => cs.cart_id == cartId)).map (fun cs => cs.price_snapshot)).sum

/-- Modelled from the spec (section 4.5, `PaymentOrchestrator`): the amount
requested from the payment provider is computed via the same `CartAggregator`
aggregation as the read path. -/
def authorizationAmount (st : BState) (cartId : Nat) : Int :=
  cartTotal st cartId

/-- Modelled from the spec (section 4.3) and `docs/TICKETING_SYSTEM.md` step 4:
the `GET /cart` read path serves each cart seat with `price_cents` equal to
its snapshot price. -/
def cartViewSeats (st : BState) (cartId : Nat) : List Client.SeatView :=
  (st.cartSeats.filter (fun cs => cs.cart_id == cartId)).map
    (fun cs => { seat_id := cs.seat_id, price_cents := some cs.price_snapshot })

/-- The `OPEN` carts of a `(user, event)` pair. -/
def openCartsFor (carts : List CartRec) (u e : Nat) : List CartRec :=
  carts.filter (isOpenFor u e)

/-- Spec section 3 invariant: at most one `OPEN` cart per `(user_id, event_id)`. -/
def OneOpenCartInv (carts : List CartRec) : Prop :=
  ∀ u e, (openCartsFor carts u e).length ≤ 1

end Backend

section ConcreteStates

/-- A uniform price catalog used by concrete instantiations. -/
def price0 : Nat → Int := fun _ => 7500

/-- An inventory whose every seat is AVAILABLE and no carts exist. -/
def stEmpty : Backend.BState :=
  ⟨fun _ => ⟨.AVAILABLE, none, none⟩, [], [], [], [], [], 1, 1⟩

/-- An inventory where seat 7 is SOLD and everything else is AVAILABLE. -/
def stSold : Backend.BState :=
  { stEmpty with
    seats := fun sid => if sid == 7 then ⟨.SOLD, none, none⟩ else ⟨.AVAILABLE, none, none⟩ }

/-- An inventory where seat 5 is stored HELD by cart 3 with an expired hold
(`hold_expires_at = 50`). -/
def stHeldExpired : Backend.BState :=
  { stEmpty with
    seats := fun sid => if sid == 5 then ⟨.HELD, some 3, some 50⟩ else ⟨.AVAILABLE, none, none⟩ }

/-- A purchase-ready inventory: seat 101 HELD by the OPEN cart 42 of user 7
until time 600, with its snapshot price recorded. -/
def stPurchase : Backend.BState :=
  { seats := fun sid => if sid == 101 then ⟨.HELD, some 42, some 600⟩ else ⟨.AVAILABLE, none, none⟩
    carts := [⟨42, 7, 1, .OPEN, 600⟩]
    cartSeats := [⟨42, 101, 7500⟩]
    orders := []
    orderItems := []
    tickets := []
    nextCartId := 43
    nextOrderId := 1 }

/-- An inventory whose only cart, cart 42 of `(user 7, event 1)`, has
terminated in CONVERTED. -/
def stTerminated : Backend.BState :=
  { stEmpty with carts := [⟨42, 7, 1, .CONVERTED, 0⟩], nextCartId := 43 }

/-- A provider view reporting a succeeded authorization correlated to cart 42
and user 7. -/
def provider0 : String → Backend.PaymentIntentRec := fun _ => ⟨"succeeded", 42, 7⟩

/-- A provider view on which no authorization ever succeeded. -/
def failProvider : String → Backend.PaymentIntentRec :=
  fun _ => ⟨"requires_payment_method", 42, 7⟩

/-- Two fresh 16-character barcode candidates. -/
def cands0 : List String := ["CCCCCCCCCCCCCCCC", "DDDDDDDDDDDDDDDD"]

/-- A two-seat sample of the `GET /events/{id}/seats` payload. -/
def seatsEx : List Client.ApiSeat :=
  [⟨1, some "A", "1", some 1, some 7500, "SOLD", some "Orchestra"⟩,
   ⟨2, some "A", "2", some 2, some 7500, "AVAILABLE", some "Orchestra"⟩,
   ⟨3, some "B", "1", some 1, some 5000, "HELD", none⟩]

end ConcreteStates

section HelperLemmas

lemma foldl_add_price_map (l : List Backend.CartSeat) (a : Int) :
    ((l.map (fun cs =>
        ({ seat_id := cs.seat_id, price_cents := some cs.price_snapshot } : Client.SeatView))).foldl
      (fun sum s => sum + s.price_cents.getD 0) a)
      = a + (l.map (fun cs => cs.price_snapshot)).sum := by
  induction l generalizing a with
  | nil => simp
  | cons c l ih => simp [ih]; ring

lemma avail_partition (seats : List Client.ApiSeat)
    (h : ∀ s ∈ seats, s.availability = "AVAILABLE" ∨ s.availability = "HELD" ∨
          s.availability = "SOLD") :
    (seats.filter (fun s => s.availability == "AVAILABLE")).length
      + (seats.filter (fun s => s.availability == "HELD")).length
      + (seats.filter (fun s => s.availability == "SOLD")).length = seats.length := by
  induction seats with
  | nil => simp
  | cons a l ih =>
    have ha := h a (by simp)
    have hl := ih (fun s hs => h s (List.mem_cons_of_mem _ hs))
    rcases ha with h1 | h1 | h1 <;>
      simp [List.filter_cons, h1] <;> omega

end HelperLemmas

/-- C10 — `inventoryStats` never divides by zero and partitions the
inventory: `percentSold` is `(sold / total) * 100` exactly when the total is
positive and `0` when the inventory is empty, and whenever every seat's
availability is one of AVAILABLE, HELD, SOLD the three counts partition the
total. -/
theorem tessera_C10_inventory_stats (seats : List Client.ApiSeat) :
    (0 < (Client.inventoryStats seats).total →
      (Client.inventoryStats seats).percentSold =
        ((Client.inventoryStats seats).sold : ℚ) / ((Client.inventoryStats seats).total : ℚ) * 100) ∧
    ((Client.inventoryStats seats).total = 0 → (Client.inventoryStats seats).percentSold = 0) ∧
    ((∀ s ∈ seats, s.availability = "AVAILABLE" ∨ s.availability = "HELD" ∨
        s.availability = "SOLD") →
      (Client.inventoryStats seats).available + (Client.inventoryStats seats).held +
        (Client.inventoryStats seats).sold = (Client.inventoryStats seats).total) := by
  refine ⟨fun h => ?_, fun h => ?_, fun h => ?_⟩
  · simp only [Client.inventoryStats] at h ⊢
    rw [if_pos h]
  · simp only [Client.inventoryStats] at h ⊢
    rw [if_neg (by omega)]
  · have := avail_partition seats h
    simp only [Client.inventoryStats]
    omega

/-- C10 witness: the sample inventory has a positive total with
`percentSold = (1/3) * 100` and its counts partition the total. -/
theorem tessera_C10_witness :
    (Client.inventoryStats seatsEx).percentSold =
        ((Client.inventoryStats seatsEx).sold : ℚ) / ((Client.inventoryStats seatsEx).total : ℚ) * 100 ∧
    (Client.inventoryStats seatsEx).available + (Client.inventoryStats seatsEx).held +
        (Client.inventoryStats seatsEx).sold = (Client.inventoryStats seatsEx).total :=
  ⟨(tessera_C10_inventory_stats seatsEx).1 (by decide),
   (tessera_C10_inventory_stats seatsEx).2.2 (by decide)⟩

/-- C5 — the UI-facing cart total and the amount submitted for payment never
diverge: the payment form's `totalCents / 100` equals the cart page's
`getCartTotal`, and on the carts served by the read path both equal the sum
of the cart's snapshot prices, which is the amount the orchestrator
authorizes with the payment provider. -/
theorem tessera_C5_totals_agree :
    (∀ cart : Client.CartView,
      Client.paymentFormTotalDollars cart.seats = Client.getCartTotal cart) ∧
    (∀ (st : Backend.BState) (cid : Nat),
      Client.paymentFormTotalCents (Backend.cartViewSeats st cid) = Backend.cartTotal st cid ∧
      Backend.authorizationAmount st cid = Backend.cartTotal st cid) := by
  refine ⟨fun cart => rfl, fun st cid => ⟨?_, rfl⟩⟩
  simp only [Client.paymentFormTotalCents, Backend.cartViewSeats, Backend.cartTotal]
  rw [foldl_add_price_map]
  ring

section ReserveReleaseLemmas

lemma findOrCreateOpenCart_seats (st : Backend.BState) (u e : Nat) (now : Int) :
    (Backend.findOrCreateOpenCart st u e now).2.seats = st.seats := by
  cases h : st.carts.find? (Backend.isOpenFor u e) <;>
    simp [Backend.findOrCreateOpenCart, h]

lemma reserve_ok_seats {st : Backend.BState} {sellable : Bool} {u ev : Nat}
    {ids : List Nat} {price : Nat → Int} {now : Int} {st' : Backend.BState}
    {cart : Backend.CartRec}
    (h : Backend.reserve st sellable u ev ids price now = .ok (st', cart)) :
    st'.seats = Backend.holdSeats st.seats ids cart.cart_id (now + Backend.ttl) := by
  simp only [Backend.reserve] at h
  split at h
  · exact absurd h (by simp)
  · split at h
    · injection h with hpair
      injection hpair with h1 h2
      subst h1
      subst h2
      simp [findOrCreateOpenCart_seats]
    · exact absurd h (by simp)

end ReserveReleaseLemmas

/-- C6 — `release` is idempotent: a `reserve` followed by a `release` returns
the seat to AVAILABLE; releasing again (or releasing an already-available
seat) is a no-op that succeeds rather than erroring; and on the client,
removing a seat id from `selectedSeatIds` by `filter` is likewise
idempotent. -/
theorem tessera_C6_release_idempotent :
    (∀ (st : Backend.BState) (u ev sid : Nat) (price : Nat → Int) (now : Int)
       (st' : Backend.BState) (cart : Backend.CartRec),
       Backend.reserve st true u ev [sid] price now = .ok (st', cart) →
       (Backend.release st' cart.cart_id [sid] now).seats sid = ⟨.AVAILABLE, none, none⟩) ∧
    (∀ (st : Backend.BState) (cid : Nat) (ids : List Nat) (now : Int),
       Backend.release (Backend.release st cid ids now) cid ids now =
         Backend.release st cid ids now) ∧
    (∀ (st : Backend.BState) (cid : Nat) (ids : List Nat) (now : Int) (sid : Nat),
       (st.seats sid).status = .AVAILABLE →
       (Backend.release st cid ids now).seats sid = st.seats sid) ∧
    (∀ (cs : Client.SelectionState) (sid : Nat),
       Client.removeSeatUpdate (Client.removeSeatUpdate cs sid) sid =
         Client.removeSeatUpdate cs sid) := by
  refine ⟨?_, ?_, ?_, ?_⟩
  · intro st u ev sid price now st' cart h
    have hs := reserve_ok_seats h
    have hheld : Backend.heldByCart (st'.seats sid) cart.cart_id now = true := by
      rw [hs]
      have hlt : ¬(now + Backend.ttl ≤ now) := by simp only [Backend.ttl]; omega
      simp [Backend.holdSeats, Backend.heldByCart, Backend.effectiveStatus, hlt]
    simp [Backend.release, hheld]
  · intro st cid ids now
    simp only [Backend.release]
    congr 1
    · funext sid
      by_cases hmem : sid ∈ ids
      · by_cases hheld : Backend.heldByCart (st.seats sid) cid now = true
        · have h2 : Backend.heldByCart ⟨.AVAILABLE, none, none⟩ cid now = false := rfl
          simp [hmem, hheld, h2]
        · simp [hmem, hheld]
      · simp [hmem]
    · rw [List.filter_filter]
      simp
  · intro st cid ids now sid h
    have : Backend.heldByCart (st.seats sid) cid now = false := by
      simp [Backend.heldByCart, Backend.effectiveStatus, h]
    simp [Backend.release, this]
  · intro cs sid
    simp [Client.removeSeatUpdate, List.filter_filter]

/-- C6 witness: on the all-available inventory, reserving seat 5 and then
releasing it via the created cart (id 1) yields a cleared AVAILABLE record,
and releasing the untouched available seat 9 is a no-op. -/
theorem tessera_C6_witness :
    (Backend.release
        (Backend.reserveVisible (Backend.reserve stEmpty true 1 1 [5] price0 0) stEmpty)
        1 [5] 0).seats 5 = ⟨.AVAILABLE, none, none⟩ ∧
    (Backend.release stEmpty 2 [9] 0).seats 9 = stEmpty.seats 9 :=
  ⟨tessera_C6_release_idempotent.1 stEmpty 1 1 5 price0 0 _ _ rfl,
   tessera_C6_release_idempotent.2.2.1 stEmpty 2 [9] 0 9 rfl⟩

section TimeDisplayLemmas

lemma fmtRemaining_ne_expired (d : Int) : Client.fmtRemaining d ≠ "Expired" := by
  intro h
  have hc : ':' ∈ (Client.fmtRemaining d).data := by
    simp only [Client.fmtRemaining, String.data_append]
    simp
  rw [h] at hc
  exact absurd hc (by decide)

lemma unavailableIn_findOrCreate (st : Backend.BState) (u e : Nat) (now t : Int)
    (ids : List Nat) :
    Backend.unavailableIn (Backend.findOrCreateOpenCart st u e t).2 ids now =
      Backend.unavailableIn st ids now := by
  simp only [Backend.unavailableIn, findOrCreateOpenCart_seats]

end TimeDisplayLemmas

/-- C1 — the logical availability of a seat: `effectiveStatus` is SOLD when
the stored status is SOLD, AVAILABLE when the stored status is HELD with
`hold_expires_at ≤ now`, and the stored status otherwise; a seat whose hold
has expired can be successfully reserved by a new `reserve` call even though
no sweep has run; and the client's remaining-time display reports
`'Expired'` exactly when `expires_at ≤ now`. -/
theorem tessera_C1_effective_status :
    (∀ (r : Backend.SeatRecord) (now : Int),
      (r.status = .SOLD → Backend.effectiveStatus r now = .SOLD) ∧
      (∀ xp, r.status = .HELD → r.hold_expires_at = some xp → xp ≤ now →
        Backend.effectiveStatus r now = .AVAILABLE) ∧
      (r.status = .AVAILABLE → Backend.effectiveStatus r now = .AVAILABLE) ∧
      (r.status = .HELD → (∀ xp, r.hold_expires_at = some xp → now < xp) →
        Backend.effectiveStatus r now = .HELD)) ∧
    (∀ (st : Backend.BState) (u ev sid c : Nat) (xp : Int) (price : Nat → Int) (now : Int),
      st.seats sid = ⟨.HELD, some c, some xp⟩ → xp ≤ now →
      ∃ st' cart, Backend.reserve st true u ev [sid] price now = .ok (st', cart) ∧
        st'.seats sid = ⟨.HELD, some cart.cart_id, some (now + Backend.ttl)⟩) ∧
    (∀ (xp now : Int),
      Client.getTimeRemaining (some xp) now = some "Expired" ↔ xp ≤ now) := by
  refine ⟨fun r now => ⟨fun h => ?_, fun xp h hx hle => ?_, fun h => ?_, fun h hlt => ?_⟩,
          fun st u ev sid c xp price now hseat hle => ?_, fun xp now => ⟨fun h => ?_, fun h => ?_⟩⟩
  · simp [Backend.effectiveStatus, h]
  · simp [Backend.effectiveStatus, h, hx, hle]
  · simp [Backend.effectiveStatus, h]
  · rcases hx : r.hold_expires_at with _ | xp
    · simp [Backend.effectiveStatus, h, hx]
    · have := hlt xp hx
      simp [Backend.effectiveStatus, h, hx]
      omega
  · have hempty : Backend.unavailableIn st [sid] now = [] := by
      simp [Backend.unavailableIn, hseat, Backend.effectiveStatus, hle]
    have hok : ∃ st' cart, Backend.reserve st true u ev [sid] price now = .ok (st', cart) := by
      simp only [Backend.reserve]
      rw [if_neg (by simp)]
      rw [unavailableIn_findOrCreate, hempty]
      exact ⟨_, _, rfl⟩
    obtain ⟨st', cart, hokk⟩ := hok
    refine ⟨st', cart, hokk, ?_⟩
    rw [reserve_ok_seats hokk]
    simp [Backend.holdSeats]
  · by_cases hle : xp ≤ now
    · exact hle
    · exfalso
      have hpos : ¬(xp - now ≤ 0) := by omega
      simp only [Client.getTimeRemaining, if_neg hpos] at h
      exact fmtRemaining_ne_expired _ (by injection h)
  · simp only [Client.getTimeRemaining, if_pos (show xp - now ≤ 0 by omega)]

/-- C1 witness: a record stored HELD by cart 3 with expiry 50 is effectively
AVAILABLE at time 100; on the inventory `stHeldExpired` a fresh `reserve` of
seat 5 at time 100 succeeds with the newly created cart 1; and the client
display shows `'Expired'` for an expiry at 40 at time 40. -/
theorem tessera_C1_witness :
    Backend.effectiveStatus ⟨.HELD, some 3, some 50⟩ 100 = .AVAILABLE ∧
    (∃ st' cart, Backend.reserve stHeldExpired true 1 1 [5] price0 100 = .ok (st', cart) ∧
      st'.seats 5 = ⟨.HELD, some cart.cart_id, some (100 + Backend.ttl)⟩) ∧
    Client.getTimeRemaining (some 40) 40 = some "Expired" :=
  ⟨(tessera_C1_effective_status.1 ⟨.HELD, some 3, some 50⟩ 100).2.1 50 rfl rfl (by decide),
   tessera_C1_effective_status.2.1 stHeldExpired 1 1 5 3 50 price0 100 rfl (by decide),
   (tessera_C1_effective_status.2.2 40 40).mpr (by decide)⟩

/-- C2 — `reserve` is all-or-nothing: whatever the event's sellability, when
any requested seat is not effectively AVAILABLE the call fails — with a
Conflict carrying exactly the unavailable seat ids on a sellable event, and
with NotSellable before any seat is examined otherwise — and the committed
state is the unchanged pre-call state; on the client a failed reserve
response leaves the selection and cart state unchanged, and a seat id is
added to the selection only by an ok response. -/
theorem tessera_C2_reserve_all_or_nothing :
    (∀ (st : Backend.BState) (sellable : Bool) (u ev : Nat) (seat_ids : List Nat)
       (price : Nat → Int) (now : Int),
       Backend.unavailableIn st seat_ids now ≠ [] →
       Backend.reserve st sellable u ev seat_ids price now =
         .error (if sellable then .conflict (Backend.unavailableIn st seat_ids now)
                 else .notSellable)) ∧
    (∀ (st : Backend.BState) (sellable : Bool) (u ev : Nat) (seat_ids : List Nat)
       (price : Nat → Int) (now : Int) (us : List Nat),
       Backend.reserve st sellable u ev seat_ids price now = .error (.conflict us) →
       us = Backend.unavailableIn st seat_ids now ∧ us ≠ []) ∧
    (∀ (st : Backend.BState) (sellable : Bool) (u ev : Nat) (seat_ids : List Nat)
       (price : Nat → Int) (now : Int) (err : Backend.ReserveErr),
       Backend.reserve st sellable u ev seat_ids price now = .error err →
       Backend.reserveVisible (Backend.reserve st sellable u ev seat_ids price now) st = st) ∧
    (∀ (cs : Client.SelectionState) (sid : Nat) (data : Client.CartView),
       Client.addSeatUpdate cs false sid data = cs) ∧
    (∀ (cs : Client.SelectionState) (ok : Bool) (sid : Nat) (data : Client.CartView),
       sid ∈ (Client.addSeatUpdate cs ok sid data).selectedSeatIds →
       sid ∉ cs.selectedSeatIds → ok = true) := by
  refine ⟨?_, ?_, ?_, ?_, ?_⟩
  · intro st sellable u ev seat_ids price now h
    cases sellable with
    | false => simp [Backend.reserve]
    | true =>
      simp only [Backend.reserve]
      rw [if_neg (by simp)]
      rw [unavailableIn_findOrCreate]
      rw [if_neg (by simp [List.isEmpty_iff, h])]
      simp
  · intro st sellable u ev seat_ids price now us h
    simp only [Backend.reserve] at h
    split at h
    · exact absurd h (by simp)
    · rw [unavailableIn_findOrCreate] at h
      split at h
      · exact absurd h (by simp)
      · rename_i hne
        injection h with herr
        injection herr with hus
        subst hus
        refine ⟨rfl, ?_⟩
        simpa [List.isEmpty_iff] using hne
  · intro st sellable u ev seat_ids price now err h
    rw [h]
    rfl
  · intro cs sid data
    simp [Client.addSeatUpdate]
  · intro cs ok sid data hmem hnot
    cases ok
    · exact absurd (by simpa [Client.addSeatUpdate] using hmem) hnot
    · rfl

/-- C2 witness: on the inventory with seat 7 SOLD, reserving `[6, 7]` on a
sellable event fails with a Conflict listing exactly `[7]` while on a
non-sellable event it fails NotSellable, the committed state is unchanged in
both cases, and on the client a failed response leaves the selection
unchanged. -/
theorem tessera_C2_witness :
    Backend.reserve stSold true 1 1 [6, 7] price0 0 =
      .error (.conflict (Backend.unavailableIn stSold [6, 7] 0)) ∧
    Backend.reserve stSold false 1 1 [6, 7] price0 0 = .error .notSellable ∧
    Backend.reserveVisible (Backend.reserve stSold true 1 1 [6, 7] price0 0) stSold = stSold ∧
    Backend.reserveVisible (Backend.reserve stSold false 1 1 [6, 7] price0 0) stSold = stSold ∧
    Client.addSeatUpdate ⟨[6], none⟩ false 7 ⟨1, []⟩ = ⟨[6], none⟩ :=
  ⟨tessera_C2_reserve_all_or_nothing.1 stSold true 1 1 [6, 7] price0 0 (by decide),
   tessera_C2_reserve_all_or_nothing.1 stSold false 1 1 [6, 7] price0 0 (by decide),
   tessera_C2_reserve_all_or_nothing.2.2.1 stSold true 1 1 [6, 7] price0 0
     (.conflict [7]) rfl,
   tessera_C2_reserve_all_or_nothing.2.2.1 stSold false 1 1 [6, 7] price0 0
     .notSellable rfl,
   tessera_C2_reserve_all_or_nothing.2.2.2.1 ⟨[6], none⟩ 7 ⟨1, []⟩⟩

section BarcodeLemmas

lemma genBarcode_spec :
    ∀ (cands existing : List String) (b : String) (rest : List String),
      Backend.genBarcode existing cands = some (b, rest) →
      b ∈ cands ∧ b ∉ existing ∧ ∀ x ∈ rest, x ∈ cands := by
  intro cands
  induction cands with
  | nil => intro existing b rest h; simp [Backend.genBarcode] at h
  | cons c cs ih =>
    intro existing b rest h
    simp only [Backend.genBarcode] at h
    split at h
    · obtain ⟨h1, h2, h3⟩ := ih existing b rest h
      exact ⟨List.mem_cons_of_mem _ h1, h2, fun x hx => List.mem_cons_of_mem _ (h3 x hx)⟩
    · rename_i hcon
      injection h with hp
      injection hp with hb hr
      subst hb
      subst hr
      refine ⟨List.mem_cons_self _ _, ?_, fun x hx => List.mem_cons_of_mem _ hx⟩
      intro hmem
      exact hcon (by simpa [List.elem_iff] using hmem)

lemma genBarcodes_spec :
    ∀ (n : Nat) (existing cands bs : List String),
      Backend.genBarcodes existing cands n = some bs →
      (∀ b ∈ bs, b ∈ cands ∧ b ∉ existing) ∧ bs.Nodup ∧ bs.length = n := by
  intro n
  induction n with
  | zero =>
    intro existing cands bs h
    simp only [Backend.genBarcodes] at h
    injection h with hbs
    subst hbs
    simp
  | succ n ih =>
    intro existing cands bs h
    simp only [Backend.genBarcodes] at h
    split at h
    · exact absurd h (by simp)
    · rename_i b rest hg
      split at h
      · exact absurd h (by simp)
      · rename_i bs' hr
        injection h with hbs
        subst hbs
        obtain ⟨hb1, hb2, hb3⟩ := genBarcode_spec cands existing b rest hg
        obtain ⟨ih1, ih2, ih3⟩ := ih (b :: existing) rest bs' hr
        refine ⟨?_, ?_, by simp [ih3]⟩
        · intro x hx
          rcases List.mem_cons.mp hx with rfl | hx'
          · exact ⟨hb1, hb2⟩
          · obtain ⟨hx1, hx2⟩ := ih1 x hx'
            exact ⟨hb3 x hx1, fun hmem => hx2 (List.mem_cons_of_mem _ hmem)⟩
        · refine List.nodup_cons.mpr ⟨?_, ih2⟩
          intro hbmem
          exact (ih1 b hbmem).2 (List.mem_cons_self _ _)

lemma completePurchase_ok_elim {st : Backend.BState}
    {provider : String → Backend.PaymentIntentRec} {pid : String}
    {cartId userId : Nat} {now : Int} {cands : List String} {inject : Bool}
    {st' : Backend.BState}
    (h : Backend.completePurchase st provider pid cartId userId now cands inject = .ok st') :
    (provider pid).status = "succeeded" ∧
    ∃ bs, Backend.genBarcodes (st.tickets.map (fun t => t.barcode)) cands
        (st.cartSeats.filter (fun cs => cs.cart_id == cartId)).length = some bs ∧
      st' = { st with
        orders := st.orders ++ [⟨st.nextOrderId, userId, "PAID",
          ((st.cartSeats.filter (fun cs => cs.cart_id == cartId)).map
            (fun cs => cs.price_snapshot)).sum⟩]
        orderItems := st.orderItems ++
          (st.cartSeats.filter (fun cs => cs.cart_id == cartId)).map
            (fun cs => ⟨st.nextOrderId, cs.seat_id, cs.price_snapshot⟩)
        tickets := st.tickets ++
          ((st.cartSeats.filter (fun cs => cs.cart_id == cartId)).zip bs).map
            (fun p => ⟨st.nextOrderId, p.1.seat_id, p.2, "ISSUED"⟩)
        seats := fun sid =>
          if ((st.cartSeats.filter (fun cs => cs.cart_id == cartId)).map
                (fun cs => cs.seat_id)).contains sid then ⟨.SOLD, none, none⟩
          else st.seats sid
        carts := Backend.setCartStatus st.carts cartId .CONVERTED
        cartSeats := st.cartSeats.filter (fun cs => !(cs.cart_id == cartId))
        nextOrderId := st.nextOrderId + 1 } := by
  simp only [Backend.completePurchase] at h
  split at h
  · exact absurd h (by simp)
  · rename_i hpay
    split at h
    · exact absurd h (by simp)
    · split at h
      · exact absurd h (by simp)
      · split at h
        · exact absurd h (by simp)
        · split at h
          · exact absurd h (by simp)
          · rename_i bs hg
            injection h with hst
            exact ⟨not_not.mp hpay, bs, hg, hst.symm⟩

end BarcodeLemmas

/-- C7 — barcodes of distinct tickets are distinct: a successful barcode
generation yields pairwise-distinct barcodes that avoid every barcode issued
before (so uniqueness holds across the system's lifetime), each 16 characters
long when the generator draws 16-character candidates; a colliding candidate
is retried internally, never an error; and a successful `completePurchase`
preserves the global distinctness of all issued barcodes. -/
theorem tessera_C7_barcode_uniqueness :
    (∀ (existing cands : List String) (n : Nat) (bs : List String),
       Backend.genBarcodes existing cands n = some bs →
       bs.Nodup ∧ (∀ b ∈ bs, b ∉ existing) ∧
       (existing.Nodup → (existing ++ bs).Nodup) ∧
       ((∀ c ∈ cands, c.length = 16) → ∀ b ∈ bs, b.length = 16)) ∧
    (∀ (existing : List String) (c : String) (rest : List String),
       c ∈ existing →
       Backend.genBarcode existing (c :: rest) = Backend.genBarcode existing rest) ∧
    (∀ (st : Backend.BState) (provider : String → Backend.PaymentIntentRec) (pid : String)
       (cartId userId : Nat) (now : Int) (cands : List String) (st' : Backend.BState),
       (st.tickets.map (fun t => t.barcode)).Nodup →
       Backend.completePurchase st provider pid cartId userId now cands false = .ok st' →
       (st'.tickets.map (fun t => t.barcode)).Nodup) := by
  refine ⟨?_, ?_, ?_⟩
  · intro existing cands n bs h
    obtain ⟨h1, h2, h3⟩ := genBarcodes_spec n existing cands bs h
    refine ⟨h2, fun b hb => (h1 b hb).2, fun hex => ?_, fun hlen b hb => hlen b (h1 b hb).1⟩
    exact List.Nodup.append hex h2 (fun a ha hb => (h1 a hb).2 ha)
  · intro existing c rest hmem
    have hcon : existing.contains c = true := by simpa [List.elem_iff] using hmem
    simp only [Backend.genBarcode]
    rw [if_pos hcon]
  · intro st provider pid cartId userId now cands st' hnd h
    obtain ⟨-, bs, hg, hst⟩ := completePurchase_ok_elim h
    obtain ⟨hb1, hb2, hb3⟩ :=
      genBarcodes_spec (st.cartSeats.filter (fun cs => cs.cart_id == cartId)).length
        (st.tickets.map (fun t => t.barcode)) cands bs hg
    subst hst
    have hzip : ((((st.cartSeats.filter (fun cs => cs.cart_id == cartId))).zip bs).map
        (fun p => (⟨st.nextOrderId, p.1.seat_id, p.2, "ISSUED"⟩ : Backend.TicketRec))).map
          (fun t => t.barcode) = bs := by
      rw [List.map_map]
      exact List.map_snd_zip _ _ (le_of_eq hb3)
    simp only [List.map_append, hzip]
    exact List.Nodup.append hnd hb2 (fun a ha hb => (hb1 a hb).2 ha)

/-- C7 witness: with one barcode already issued, drawing from a candidate
pool whose first candidate collides yields two fresh, distinct, 16-character
barcodes and leaves the global pool duplicate-free. -/
theorem tessera_C7_witness :
    (["CCCCCCCCCCCCCCCC", "EEEEEEEEEEEEEEEE", "FFFFFFFFFFFFFFFF"].length = 3) ∧
    ((["EEEEEEEEEEEEEEEE", "FFFFFFFFFFFFFFFF"] : List String).Nodup ∧
      (∀ b ∈ (["EEEEEEEEEEEEEEEE", "FFFFFFFFFFFFFFFF"] : List String),
        b ∉ (["CCCCCCCCCCCCCCCC"] : List String)) ∧
      ((["CCCCCCCCCCCCCCCC"] : List String).Nodup →
        ((["CCCCCCCCCCCCCCCC"] : List String) ++ ["EEEEEEEEEEEEEEEE", "FFFFFFFFFFFFFFFF"]).Nodup) ∧
      ((∀ c ∈ (["CCCCCCCCCCCCCCCC", "EEEEEEEEEEEEEEEE", "FFFFFFFFFFFFFFFF"] : List String),
          c.length = 16) →
        ∀ b ∈ (["EEEEEEEEEEEEEEEE", "FFFFFFFFFFFFFFFF"] : List String), b.length = 16)) :=
  ⟨rfl,
   tessera_C7_barcode_uniqueness.1 ["CCCCCCCCCCCCCCCC"]
     ["CCCCCCCCCCCCCCCC", "EEEEEEEEEEEEEEEE", "FFFFFFFFFFFFFFFF"] 2
     ["EEEEEEEEEEEEEEEE", "FFFFFFFFFFFFFFFF"] rfl⟩

/-- C3 — `completePurchase` is atomic: on success the `PAID` order, the
per-seat order items at snapshot prices, one ticket per seat, the
HELD-to-SOLD seat transitions, the CONVERTED cart and the cleared cart seats
all become visible together; a failure injected after payment verification
but before the seat transition yields an error; and on any error the
committed state is the unchanged pre-call state, so none of those effects is
visible. -/
theorem tessera_C3_complete_purchase_atomic :
    (∀ (st : Backend.BState) (provider : String → Backend.PaymentIntentRec) (pid : String)
       (cartId userId : Nat) (now : Int) (cands : List String) (st' : Backend.BState),
       Backend.completePurchase st provider pid cartId userId now cands false = .ok st' →
       st'.orders = st.orders ++ [⟨st.nextOrderId, userId, "PAID",
           ((st.cartSeats.filter (fun cs => cs.cart_id == cartId)).map
             (fun cs => cs.price_snapshot)).sum⟩] ∧
       st'.orderItems = st.orderItems ++
           (st.cartSeats.filter (fun cs => cs.cart_id == cartId)).map
             (fun cs => ⟨st.nextOrderId, cs.seat_id, cs.price_snapshot⟩) ∧
       st'.tickets.length = st.tickets.length +
           (st.cartSeats.filter (fun cs => cs.cart_id == cartId)).length ∧
       (∀ cs ∈ st.cartSeats.filter (fun cs => cs.cart_id == cartId),
           (st'.seats cs.seat_id).status = .SOLD) ∧
       st'.carts = Backend.setCartStatus st.carts cartId .CONVERTED ∧
       st'.cartSeats.filter (fun cs => cs.cart_id == cartId) = []) ∧
    (∀ (st : Backend.BState) (provider : String → Backend.PaymentIntentRec) (pid : String)
       (cartId userId : Nat) (now : Int) (cands : List String),
       ∃ err, Backend.completePurchase st provider pid cartId userId now cands true =
         .error err) ∧
    (∀ (st : Backend.BState) (provider : String → Backend.PaymentIntentRec) (pid : String)
       (cartId userId : Nat) (now : Int) (cands : List String) (inject : Bool)
       (err : Backend.FinalizeErr),
       Backend.completePurchase st provider pid cartId userId now cands inject = .error err →
       Backend.finalizeVisible
         (Backend.completePurchase st provider pid cartId userId now cands inject) st = st) := by
  refine ⟨?_, ?_, ?_⟩
  · intro st provider pid cartId userId now cands st' h
    obtain ⟨-, bs, hg, hst⟩ := completePurchase_ok_elim h
    obtain ⟨-, -, hlen⟩ :=
      genBarcodes_spec (st.cartSeats.filter (fun cs => cs.cart_id == cartId)).length
        (st.tickets.map (fun t => t.barcode)) cands bs hg
    subst hst
    refine ⟨rfl, rfl, ?_, ?_, rfl, ?_⟩
    · simp [List.length_zip, hlen]
    · intro cs hcs
      have hmem : ((st.cartSeats.filter (fun cs => cs.cart_id == cartId)).map
          (fun cs => cs.seat_id)).contains cs.seat_id = true := by
        simp only [List.elem_iff, List.mem_map]
        exact ⟨cs, hcs, rfl⟩
      show ((if ((st.cartSeats.filter (fun cs => cs.cart_id == cartId)).map
          (fun cs => cs.seat_id)).contains cs.seat_id = true then
            (⟨.SOLD, none, none⟩ : Backend.SeatRecord)
          else st.seats cs.seat_id)).status = .SOLD
      rw [if_pos hmem]
    · rw [List.filter_filter]
      simp
  · intro st provider pid cartId userId now cands
    simp only [Backend.completePurchase]
    split
    · exact ⟨_, rfl⟩
    · split
      · exact ⟨_, rfl⟩
      · split
        · exact ⟨_, rfl⟩
        · exact ⟨_, rfl⟩
  · intro st provider pid cartId userId now cands inject err h
    rw [h]
    rfl

/-- C3 witness: on the purchase-ready inventory a successful finalize makes
the order, the ticket count, the SOLD transition and the cleared cart seats
visible together, and with an injected failure it returns an error. -/
theorem tessera_C3_witness :
    ((Backend.finalizeVisible
        (Backend.completePurchase stPurchase provider0 "pi_1" 42 7 0 cands0 false)
        stPurchase).orders =
      stPurchase.orders ++ [⟨1, 7, "PAID", 7500⟩]) ∧
    ((Backend.finalizeVisible
        (Backend.completePurchase stPurchase provider0 "pi_1" 42 7 0 cands0 false)
        stPurchase).seats 101).status = .SOLD ∧
    (∃ err, Backend.completePurchase stPurchase provider0 "pi_1" 42 7 0 cands0 true =
      .error err) := by
  have h := (tessera_C3_complete_purchase_atomic.1 stPurchase provider0 "pi_1" 42 7 0 cands0
    (Backend.finalizeVisible
      (Backend.completePurchase stPurchase provider0 "pi_1" 42 7 0 cands0 false)
      stPurchase) rfl)
  exact ⟨h.1, h.2.2.2.1 ⟨42, 101, 7500⟩ (by decide),
    tessera_C3_complete_purchase_atomic.2.1 stPurchase provider0 "pi_1" 42 7 0 cands0⟩

/-- C4 counterexample — the claim fails on the code: the repository exposes a
second finalize path, `POST /cart/<id>/checkout` (README: "Checkout cart
(non-Stripe)"), driven by `EventDetail.handleCheckout`.  On the purchase-ready
inventory that path succeeds and creates an order and a ticket even though the
payment provider reports no succeeded authorization for any intent, and the
client request it issues carries no payment intent at all and is sent without
any prior `confirmCardPayment`. -/
theorem tessera_C4_counterexample :
    (failProvider "pi_1").status ≠ "succeeded" ∧
    (Backend.cartCheckout stPurchase 42 7 0 cands0).isOk = true ∧
    (Backend.finalizeVisible (Backend.cartCheckout stPurchase 42 7 0 cands0)
      stPurchase).orders.length = 1 ∧
    (Backend.finalizeVisible (Backend.cartCheckout stPurchase 42 7 0 cands0)
      stPurchase).tickets.length = 1 ∧
    Client.handleCheckoutFinalize (some ⟨42, []⟩) =
      some { endpoint := "/cart/42/checkout", paymentIntentId := none } :=
  ⟨by decide, rfl, rfl, rfl, by decide⟩

/-- C4 (amended) — the property holds on the Stripe path: `completePurchase`
finalizes only when the payment provider's authoritative status for the
correlated authorization is `succeeded` (no client-supplied flag is
consulted), and `PaymentForm` issues the `/complete-purchase` request only
when `confirmCardPayment` returned no error and
`paymentIntent.status === 'succeeded'`; the alternative `EventDetail` path
`POST /cart/<id>/checkout` does not satisfy the property. -/
theorem tessera_C4_payment_verified :
    (∀ (st : Backend.BState) (provider : String → Backend.PaymentIntentRec) (pid : String)
       (cartId userId : Nat) (now : Int) (cands : List String) (inject : Bool)
       (st' : Backend.BState),
       Backend.completePurchase st provider pid cartId userId now cands inject = .ok st' →
       (provider pid).status = "succeeded") ∧
    (∀ (stripeError : Option String) (intentStatus pidStr : String)
       (req : Client.FinalizeRequest),
       Client.paymentFormFinalize stripeError intentStatus pidStr = some req →
       intentStatus = "succeeded" ∧ stripeError = none ∧
       req.paymentIntentId = some pidStr) := by
  refine ⟨?_, ?_⟩
  · intro st provider pid cartId userId now cands inject st' h
    exact (completePurchase_ok_elim h).1
  · intro stripeError intentStatus pidStr req h
    cases stripeError with
    | some msg => exact absurd h (by simp [Client.paymentFormFinalize])
    | none =>
      simp only [Client.paymentFormFinalize] at h
      split at h
      · exact absurd h (by simp)
      · rename_i hstat
        injection h with hreq
        subst hreq
        exact ⟨not_not.mp hstat, rfl, rfl⟩

/-- C4 witness: a successful finalize on the purchase-ready inventory implies
the provider reported `succeeded`, and a `PaymentForm` submission that issued
the finalize request did see `succeeded` and carries the intent id. -/
theorem tessera_C4_witness :
    (provider0 "pi_1").status = "succeeded" ∧
    ("succeeded" = "succeeded" ∧ (none : Option String) = none ∧
      (some "pi_1" : Option String) = some "pi_1") :=
  ⟨tessera_C4_payment_verified.1 stPurchase provider0 "pi_1" 42 7 0 cands0 false
     (Backend.finalizeVisible
       (Backend.completePurchase stPurchase provider0 "pi_1" 42 7 0 cands0 false)
       stPurchase) rfl,
   tessera_C4_payment_verified.2 none "succeeded" "pi_1"
     ⟨"/complete-purchase", some "pi_1"⟩ rfl⟩

section CartInvariantLemmas

lemma length_filter_map_le (p : Backend.CartRec → Bool) (f : Backend.CartRec → Backend.CartRec)
    (hf : ∀ c, p (f c) = true → p c = true) :
    ∀ carts : List Backend.CartRec,
      ((carts.map f).filter p).length ≤ (carts.filter p).length := by
  intro carts
  induction carts with
  | nil => simp
  | cons c cs ih =>
    simp only [List.map_cons, List.filter_cons]
    cases h1 : p (f c)
    · cases h2 : p c <;> simp [h1, h2] <;> omega
    · have h2 := hf c h1
      simp [h1, h2]
      omega

lemma length_filter_map_eq (p : Backend.CartRec → Bool) (f : Backend.CartRec → Backend.CartRec)
    (hf : ∀ c, p (f c) = p c) :
    ∀ carts : List Backend.CartRec,
      ((carts.map f).filter p).length = (carts.filter p).length := by
  intro carts
  induction carts with
  | nil => simp
  | cons c cs ih =>
    simp only [List.map_cons, List.filter_cons, hf]
    cases h2 : p c <;> simp [h2, ih]

lemma isOpenFor_setCartExpiry (u e cid : Nat) (t : Int) (c : Backend.CartRec) :
    Backend.isOpenFor u e (if c.cart_id == cid then { c with expires_at := t } else c) =
      Backend.isOpenFor u e c := by
  by_cases h : (c.cart_id == cid) = true <;> simp [h, Backend.isOpenFor]

lemma findOrCreateOpenCart_inv (st : Backend.BState) (u ev : Nat) (now : Int)
    (hinv : Backend.OneOpenCartInv st.carts) :
    Backend.OneOpenCartInv (Backend.findOrCreateOpenCart st u ev now).2.carts := by
  intro u' e'
  cases hf : st.carts.find? (Backend.isOpenFor u ev) with
  | some c =>
    simp only [Backend.findOrCreateOpenCart, hf]
    exact hinv u' e'
  | none =>
    simp only [Backend.findOrCreateOpenCart, hf]
    have hnone : ∀ x ∈ st.carts, ¬ Backend.isOpenFor u ev x := List.find?_eq_none.mp hf
    by_cases hopen :
        Backend.isOpenFor u' e' ⟨st.nextCartId, u, ev, .OPEN, now + Backend.ttl⟩ = true
    · have hue : u = u' ∧ ev = e' := by
        simpa [Backend.isOpenFor] using hopen
      obtain ⟨rfl, rfl⟩ := hue
      have hnil : st.carts.filter (Backend.isOpenFor u ev) = [] :=
        List.filter_eq_nil_iff.mpr hnone
      simp [Backend.openCartsFor, List.filter_append, hnil, List.filter_cons, hopen]
    · simp only [Backend.openCartsFor, List.filter_append, List.filter_cons, hopen]
      simpa [Backend.openCartsFor] using hinv u' e'

lemma reserve_ok_carts {st : Backend.BState} {sellable : Bool} {u ev : Nat}
    {ids : List Nat} {price : Nat → Int} {now : Int} {st' : Backend.BState}
    {cart : Backend.CartRec}
    (h : Backend.reserve st sellable u ev ids price now = .ok (st', cart)) :
    st'.carts = Backend.setCartExpiry (Backend.findOrCreateOpenCart st u ev now).2.carts
      (Backend.findOrCreateOpenCart st u ev now).1.cart_id (now + Backend.ttl) := by
  simp only [Backend.reserve] at h
  split at h
  · exact absurd h (by simp)
  · split at h
    · injection h with hpair
      injection hpair with h1 h2
      subst h1
      subst h2
      rfl
    · exact absurd h (by simp)

end CartInvariantLemmas

/-- C8 — at most one OPEN cart per `(user_id, event_id)` is preserved by
every operation: the find-or-create step of `reserve` keeps the invariant
(and so does `reserve` itself), `completePurchase` terminates the cart in
CONVERTED, the sweep terminates stale carts in EXPIRED, and once a pair has
no OPEN cart a new reservation creates a fresh cart whose id differs from
every existing cart — a terminated cart is never reused. -/
theorem tessera_C8_one_open_cart :
    (∀ (st : Backend.BState) (u ev : Nat) (now : Int),
       Backend.OneOpenCartInv st.carts →
       Backend.OneOpenCartInv (Backend.findOrCreateOpenCart st u ev now).2.carts) ∧
    (∀ (st : Backend.BState) (sellable : Bool) (u ev : Nat) (ids : List Nat)
       (price : Nat → Int) (now : Int) (st' : Backend.BState) (cart : Backend.CartRec),
       Backend.OneOpenCartInv st.carts →
       Backend.reserve st sellable u ev ids price now = .ok (st', cart) →
       Backend.OneOpenCartInv st'.carts) ∧
    (∀ (st : Backend.BState) (provider : String → Backend.PaymentIntentRec) (pid : String)
       (cartId userId : Nat) (now : Int) (cands : List String) (inject : Bool)
       (st' : Backend.BState),
       Backend.OneOpenCartInv st.carts →
       Backend.completePurchase st provider pid cartId userId now cands inject = .ok st' →
       Backend.OneOpenCartInv st'.carts) ∧
    (∀ (carts : List Backend.CartRec) (now : Int),
       Backend.OneOpenCartInv carts →
       Backend.OneOpenCartInv (Backend.sweepCarts carts now)) ∧
    (∀ (st : Backend.BState) (u ev : Nat) (now : Int),
       Backend.openCartsFor st.carts u ev = [] →
       (∀ c ∈ st.carts, c.cart_id < st.nextCartId) →
       (Backend.findOrCreateOpenCart st u ev now).1.cart_id = st.nextCartId ∧
       ∀ c ∈ st.carts, c.cart_id ≠ (Backend.findOrCreateOpenCart st u ev now).1.cart_id) := by
  refine ⟨findOrCreateOpenCart_inv, ?_, ?_, ?_, ?_⟩
  · intro st sellable u ev ids price now st' cart hinv h
    intro u' e'
    rw [reserve_ok_carts h]
    have hbase := findOrCreateOpenCart_inv st u ev now hinv u' e'
    calc (Backend.openCartsFor (Backend.setCartExpiry
            (Backend.findOrCreateOpenCart st u ev now).2.carts
            (Backend.findOrCreateOpenCart st u ev now).1.cart_id (now + Backend.ttl)) u' e').length
        = (Backend.openCartsFor (Backend.findOrCreateOpenCart st u ev now).2.carts u' e').length := by
          exact length_filter_map_eq _ _ (isOpenFor_setCartExpiry u' e' _ _) _
      _ ≤ 1 := hbase
  · intro st provider pid cartId userId now cands inject st' hinv h
    obtain ⟨-, bs, -, hst⟩ := completePurchase_ok_elim h
    subst hst
    intro u' e'
    refine le_trans (length_filter_map_le _ _ ?_ st.carts) (hinv u' e')
    intro c hc
    by_cases hcid : (c.cart_id == cartId) = true
    · rw [if_pos hcid] at hc
      simp [Backend.isOpenFor] at hc
    · rwa [if_neg hcid] at hc
  · intro carts now hinv u' e'
    refine le_trans (length_filter_map_le _ _ ?_ carts) (hinv u' e')
    intro c hc
    by_cases hcond : (c.status == Backend.CartStatus.OPEN && decide (c.expires_at ≤ now)) = true
    · rw [if_pos hcond] at hc
      simp [Backend.isOpenFor] at hc
    · rwa [if_neg hcond] at hc
  · intro st u ev now hempty hfresh
    have hf : st.carts.find? (Backend.isOpenFor u ev) = none := by
      rw [List.find?_eq_none]
      intro x hx hpx
      have : x ∈ Backend.openCartsFor st.carts u ev := List.mem_filter.mpr ⟨hx, hpx⟩
      rw [hempty] at this
      exact absurd this (by simp)
    constructor
    · simp [Backend.findOrCreateOpenCart, hf]
    · intro c hc
      simp only [Backend.findOrCreateOpenCart, hf]
      exact Nat.ne_of_lt (hfresh c hc)

/-- C8 witness: starting from the empty inventory, find-or-create keeps at
most one OPEN cart for `(1, 1)`; and on an inventory whose only cart for
`(7, 1)` is CONVERTED, a new reservation creates the fresh cart 43, distinct
from the terminated cart 42. -/
theorem tessera_C8_witness :
    (Backend.openCartsFor (Backend.findOrCreateOpenCart stEmpty 1 1 0).2.carts 1 1).length ≤ 1 ∧
    (Backend.findOrCreateOpenCart stTerminated 7 1 0).1.cart_id = 43 ∧
    (⟨42, 7, 1, .CONVERTED, 0⟩ : Backend.CartRec).cart_id ≠
      (Backend.findOrCreateOpenCart stTerminated 7 1 0).1.cart_id :=
  ⟨tessera_C8_one_open_cart.1 stEmpty 1 1 0
     (fun u e => by simp [Backend.openCartsFor, stEmpty]) 1 1,
   (tessera_C8_one_open_cart.2.2.2.2 stTerminated 7 1 0 (by decide) (by decide)).1,
   (tessera_C8_one_open_cart.2.2.2.2 stTerminated 7 1 0 (by decide) (by decide)).2
     ⟨42, 7, 1, .CONVERTED, 0⟩ (by decide)⟩

section SeatRowsLemmas

lemma le_foldl_max (xs : List Nat) :
    ∀ a, a ≤ xs.foldl max a ∧ ∀ x ∈ xs, x ≤ xs.foldl max a := by
  induction xs with
  | nil => intro a; simp
  | cons y ys ih =>
    intro a
    refine ⟨le_trans (le_max_left a y) (ih (max a y)).1, ?_⟩
    intro x hx
    rcases List.mem_cons.mp hx with rfl | hx'
    · exact le_trans (le_max_right a x) (ih (max a x)).1
    · exact (ih (max a y)).2 x hx'

lemma seatCol_le_maxColOf {s : Client.ApiSeat} {l : List Client.ApiSeat}
    (hs : s ∈ l) : Client.seatCol s ≤ Client.maxColOf l :=
  (le_foldl_max (l.map Client.seatCol) 0).2 _ (List.mem_map_of_mem _ hs)

lemma seatCol_pos (s : Client.ApiSeat) : 1 ≤ Client.seatCol s := by
  unfold Client.seatCol
  split
  · split <;> omega
  · omega

lemma buildRow_getElem (l : List Client.ApiSeat) (i : Nat)
    (hi : i < Client.maxColOf l) :
    (Client.buildRow l)[i]? =
      some (match (Client.sortRow l).find? (fun s => Client.seatColIdx s == some (i + 1)) with
            | some s => some (Client.mkCell (i + 1) s)
            | none => none) := by
  simp [Client.buildRow, hi]

lemma mem_sortRow_iff {s : Client.ApiSeat} {l : List Client.ApiSeat} :
    s ∈ Client.sortRow l ↔ s ∈ l :=
  (List.perm_insertionSort _ l).mem_iff

end SeatRowsLemmas

/-- C9 — the `seatRows` transformation: the produced rows follow the distinct
row labels in ascending sorted order; each row array has length equal to the
maximum column index among its seats (`col_index`, falling back to
`parseInt(seat_number)` and then `1`); when the column values are well
defined and unique within a row, position `c - 1` holds the unique seat of
column `c`, and `null` sits wherever no seat occupies the column; and a cell
is marked `isReserved` exactly when its seat's availability is not
`'AVAILABLE'`. -/
theorem tessera_C9_seat_rows (seats : List Client.ApiSeat) :
    (List.Sorted (· ≤ ·) (Client.rowKeys seats) ∧ (Client.rowKeys seats).Nodup) ∧
    Client.seatRows seats =
      (Client.rowKeys seats).map (fun k => Client.buildRow (Client.rowSeatsOf seats k)) ∧
    (∀ k, (Client.buildRow (Client.rowSeatsOf seats k)).length =
      Client.maxColOf (Client.rowSeatsOf seats k)) ∧
    (∀ k c s,
       (∀ t ∈ seats, Client.seatColIdx t = some (Client.seatCol t)) →
       (∀ t ∈ seats, ∀ t' ∈ seats, Client.rowKey t = Client.rowKey t' →
          Client.seatCol t = Client.seatCol t' → t = t') →
       s ∈ Client.rowSeatsOf seats k → Client.seatCol s = c →
       (Client.buildRow (Client.rowSeatsOf seats k))[c - 1]? =
         some (some (Client.mkCell c s))) ∧
    (∀ k c,
       (∀ t ∈ seats, Client.seatColIdx t = some (Client.seatCol t)) →
       1 ≤ c → c ≤ Client.maxColOf (Client.rowSeatsOf seats k) →
       (∀ t ∈ Client.rowSeatsOf seats k, Client.seatCol t ≠ c) →
       (Client.buildRow (Client.rowSeatsOf seats k))[c - 1]? = some none) ∧
    (∀ c s, (Client.mkCell c s).isReserved = true ↔ s.availability ≠ "AVAILABLE") := by
  refine ⟨⟨List.sorted_insertionSort _ _,
           (List.perm_insertionSort _ _).nodup_iff.mpr (List.nodup_dedup _)⟩,
          rfl, fun k => by simp [Client.buildRow], ?_, ?_, ?_⟩
  · intro k c s hwf huniq hs hcol
    have hs_seats : s ∈ seats := (List.mem_filter.mp hs).1
    have hrow : Client.rowKey s = k := by
      have := (List.mem_filter.mp hs).2
      simpa using this
    have hc1 : 1 ≤ c := hcol ▸ seatCol_pos s
    have hcmax : c ≤ Client.maxColOf (Client.rowSeatsOf seats k) :=
      hcol ▸ seatCol_le_maxColOf hs
    have hi : c - 1 < Client.maxColOf (Client.rowSeatsOf seats k) := by omega
    rw [buildRow_getElem _ _ hi]
    have hip : c - 1 + 1 = c := by omega
    rw [hip]
    have hps : (fun t => Client.seatColIdx t == some c) s = true := by
      simp [hwf s hs_seats, hcol]
    have hsome : ((Client.sortRow (Client.rowSeatsOf seats k)).find?
        (fun t => Client.seatColIdx t == some c)).isSome := by
      rw [List.find?_isSome]
      exact ⟨s, mem_sortRow_iff.mpr hs, hps⟩
    obtain ⟨t₀, hfind⟩ := Option.isSome_iff_exists.mp hsome
    have ht₀mem : t₀ ∈ Client.rowSeatsOf seats k :=
      mem_sortRow_iff.mp (List.mem_of_find?_eq_some hfind)
    have ht₀seats : t₀ ∈ seats := (List.mem_filter.mp ht₀mem).1
    have ht₀row : Client.rowKey t₀ = k := by
      have := (List.mem_filter.mp ht₀mem).2
      simpa using this
    have ht₀col : Client.seatCol t₀ = c := by
      have hp := List.find?_some hfind
      rw [hwf t₀ ht₀seats] at hp
      simpa using hp
    have hts : t₀ = s :=
      huniq t₀ ht₀seats s hs_seats (ht₀row.trans hrow.symm) (ht₀col.trans hcol.symm)
    rw [hfind, hts]
  · intro k c hwf hc1 hcmax hnone
    have hi : c - 1 < Client.maxColOf (Client.rowSeatsOf seats k) := by omega
    rw [buildRow_getElem _ _ hi]
    have hip : c - 1 + 1 = c := by omega
    rw [hip]
    have hfind : (Client.sortRow (Client.rowSeatsOf seats k)).find?
        (fun t => Client.seatColIdx t == some c) = none := by
      rw [List.find?_eq_none]
      intro t ht hpt
      have ht' : t ∈ Client.rowSeatsOf seats k := mem_sortRow_iff.mp ht
      have : Client.seatColIdx t = some c := by simpa using hpt
      rw [hwf t (List.mem_filter.mp ht').1] at this
      exact hnone t ht' (by simpa using this)
    rw [hfind]
  · intro c s
    simp [Client.mkCell]

/-- C9 witness: on the three-seat sample, row "A" places the AVAILABLE seat 2
at position 1 (column 2) and row "B" places the HELD seat 3 at position 0;
the HELD seat's cell is marked reserved. -/
theorem tessera_C9_witness :
    (Client.buildRow (Client.rowSeatsOf seatsEx "A"))[1]? =
      some (some (Client.mkCell 2
        ⟨2, some "A", "2", some 2, some 7500, "AVAILABLE", some "Orchestra"⟩)) ∧
    (Client.buildRow (Client.rowSeatsOf seatsEx "B"))[0]? =
      some (some (Client.mkCell 1 ⟨3, some "B", "1", some 1, some 5000, "HELD", none⟩)) ∧
    (Client.mkCell 1 ⟨3, some "B", "1", some 1, some 5000, "HELD", none⟩).isReserved = true :=
  ⟨(tessera_C9_seat_rows seatsEx).2.2.2.1 "A" 2
     ⟨2, some "A", "2", some 2, some 7500, "AVAILABLE", some "Orchestra"⟩
     (by decide) (by decide) (by decide) (by decide),
   (tessera_C9_seat_rows seatsEx).2.2.2.1 "B" 1
     ⟨3, some "B", "1", some 1, some 5000, "HELD", none⟩
     (by decide) (by decide) (by decide) (by decide),
   ((tessera_C9_seat_rows seatsEx).2.2.2.2.2 1
     ⟨3, some "B", "1", some 1, some 5000, "HELD", none⟩).mpr (by decide)⟩
